import Mathlib

/-!
Verification development for the data-analytics dashboard's core engine
(`app.py`): column classification, data cleaning (duplicate removal,
missing-value policies, type coercion), IQR outlier detection and chart
suggestion.  Dataframes are embedded row-major: a header of (name, dtype)
pairs plus rows of cells.  Machine floats are modelled by exact rationals;
the missing marker (NaN/None) is an explicit cell constructor.
-/

attribute [local semireducible] Rat.mul Rat.inv Rat.add Rat.sub

/-- Pandas storage dtypes that occur in the program's data model.  The
source's `select_dtypes` calls name `int64`, `float64`, `object`,
`category` and `datetime64` explicitly; the remaining constructors model
storage types a pandas frame can also carry. -/
inductive DType where
  | int64
  | float64
  | int32
  | float32
  | boolT
  | object
  | category
  | datetime64
deriving DecidableEq, Repr

/-- A single cell: a numeric value (int or float, modelled exactly as a
rational), a text value, a boolean, a datetime (as a tick count), or the
missing marker (NaN/None/NaT). -/
inductive Value where
  | num (q : ℚ)
  | str (s : String)
  | boolV (b : Bool)
  | dt (t : ℤ)
  | missing
deriving DecidableEq, Repr

/-- A dataframe: ordered named, typed columns and row-major cell storage. -/
structure DataFrame where
  header : List (String × DType)
  rows : List (List Value)
deriving DecidableEq, Repr

instance : Inhabited DataFrame := ⟨⟨[], []⟩⟩

/- ## Generic list helpers -/

theorem getD_eq_get? {α : Type} (d : α) : ∀ (l : List α) (n : Nat), l.getD n d = (l.get? n).getD d
  | [], 0 => rfl
  | [], _ + 1 => rfl
  | _ :: _, 0 => rfl
  | _ :: xs, n + 1 => getD_eq_get? d xs n

/-- Index-aware map, with an explicit running base index (used to embed the
per-column loops of the source: cell at absolute position `base + i` is
transformed by `f (base + i)`). -/
def mapWithIdx {α : Type} (f : Nat → α → α) : Nat → List α → List α
  | _, [] => []
  | base, x :: xs => f base x :: mapWithIdx f (base + 1) xs

theorem mapWithIdx_get? {α : Type} (f : Nat → α → α) :
    ∀ (l : List α) (base n : Nat),
      (mapWithIdx f base l).get? n = (l.get? n).map (f (base + n))
  | [], _, 0 => rfl
  | [], _, _ + 1 => rfl
  | _ :: _, _, 0 => rfl
  | _ :: xs, base, n + 1 => by
    show (mapWithIdx f (base + 1) xs).get? n = (xs.get? n).map (f (base + (n + 1)))
    rw [mapWithIdx_get? f xs (base + 1) n]
    ring_nf

theorem mapWithIdx_length {α : Type} (f : Nat → α → α) :
    ∀ (l : List α) (base : Nat), (mapWithIdx f base l).length = l.length
  | [], _ => rfl
  | _ :: xs, base => by
    show (mapWithIdx f (base + 1) xs).length + 1 = xs.length + 1
    rw [mapWithIdx_length f xs (base + 1)]

/-- Keep-first duplicate removal over rows, as `drop_duplicates` does
(`seen` accumulates the rows already emitted). -/
def dropDups (seen : List (List Value)) : List (List Value) → List (List Value)
  | [] => []
  | r :: rs => if r ∈ seen then dropDups seen rs else r :: dropDups (r :: seen) rs

theorem dropDups_not_mem_seen :
    ∀ (seen l : List (List Value)) (a : List Value), a ∈ dropDups seen l → a ∉ seen
  | _, [], _, h => absurd h (List.not_mem_nil _)
  | seen, r :: rs, a, h => by
    by_cases hr : r ∈ seen
    · rw [dropDups, if_pos hr] at h
      exact dropDups_not_mem_seen seen rs a h
    · rw [dropDups, if_neg hr] at h
      rcases List.mem_cons.1 h with rfl | h2
      · exact hr
      · have := dropDups_not_mem_seen (r :: seen) rs a h2
        exact fun ha => this (List.mem_cons_of_mem _ ha)

theorem dropDups_nodup : ∀ (seen l : List (List Value)), (dropDups seen l).Nodup
  | _, [] => List.nodup_nil
  | seen, r :: rs => by
    by_cases hr : r ∈ seen
    · rw [dropDups, if_pos hr]
      exact dropDups_nodup seen rs
    · rw [dropDups, if_neg hr]
      refine List.nodup_cons.2 ⟨fun hmem => ?_, dropDups_nodup (r :: seen) rs⟩
      exact dropDups_not_mem_seen (r :: seen) rs r hmem (List.mem_cons_self _ _)

theorem dropDups_eq_self :
    ∀ (seen l : List (List Value)), l.Nodup → (∀ a ∈ l, a ∉ seen) → dropDups seen l = l
  | _, [], _, _ => rfl
  | seen, r :: rs, hnd, hdisj => by
    have hr : r ∉ seen := hdisj r (List.mem_cons_self _ _)
    rw [dropDups, if_neg hr]
    have hnd' := List.nodup_cons.1 hnd
    have : dropDups (r :: seen) rs = rs := by
      refine dropDups_eq_self (r :: seen) rs hnd'.2 fun a ha hmem => ?_
      rcases List.mem_cons.1 hmem with rfl | hseen
      · exact hnd'.1 ha
      · exact hdisj a (List.mem_cons_of_mem _ ha) hseen
    rw [this]

/- ## Column access -/

/-- Cells of column `j`, reading across all rows (missing if the row is
shorter than `j`, which never happens on well-formed frames). -/
def colCells (d : DataFrame) (j : Nat) : List Value :=
  d.rows.map (fun r => r.getD j Value.missing)

/-- Storage dtype of column `j`, if it exists. -/
def colDtype (d : DataFrame) (j : Nat) : Option DType :=
  (d.header.get? j).map Prod.snd

/-- Name of column `j` (empty string out of range). -/
def colName (d : DataFrame) (j : Nat) : String :=
  ((d.header.getD j ("", DType.object))).1

/-- Index of the first column called `c`, as `df[column]` resolves it. -/
def getColIdx (d : DataFrame) (c : String) : Option Nat :=
  d.header.findIdx? (fun p => p.1 == c)

/-- Number of missing cells in column `j`. -/
def missingCountCol (d : DataFrame) (j : Nat) : Nat :=
  (colCells d j).count Value.missing

/-- Number of missing cells in the whole frame. -/
def missingCellCount (d : DataFrame) : Nat :=
  ((List.range d.header.length).map (missingCountCol d)).sum

/-- The non-missing numeric contents of a cell list (what pandas reductions
such as `mean`, `median` and `quantile` operate on after NaN-skipping). -/
def presentRats (cells : List Value) : List ℚ :=
  cells.filterMap (fun v => match v with | .num q => some q | _ => none)

/-- Does column `j` contain a missing cell (`isnull().any()`)? -/
def colHasMissing (d : DataFrame) (j : Nat) : Bool :=
  (colCells d j).any (fun v => v == Value.missing)

/- ## analyze_column_types -/

/-- Column names whose storage dtype is in `S`, in column order
(`df.select_dtypes(include=S).columns.tolist()`). -/
def select_dtypes (d : DataFrame) (S : List DType) : List String :=
  (d.header.filter (fun p => decide (p.2 ∈ S))).map Prod.fst

/-- The classification produced by `analyze_column_types`. -/
structure ColumnClassification where
  numeric : List String
  categorical : List String
  datetime : List String
deriving DecidableEq, Repr

/-- `analyze_column_types(df)`: numeric = int64/float64 columns,
categorical = object/category columns, datetime = datetime64 columns. -/
def analyze_column_types (d : DataFrame) : ColumnClassification :=
  { numeric := select_dtypes d [DType.int64, DType.float64]
    categorical := select_dtypes d [DType.object, DType.category]
    datetime := select_dtypes d [DType.datetime64] }

/- ## Numeric parsing (pd.to_numeric with errors="coerce") -/

/-- Value of a digit run. -/
def digitsVal (cs : List Char) : Nat :=
  cs.foldl (fun n c => 10 * n + (c.toNat - 48)) 0

/-- Parse an unsigned decimal literal: a digit run, optionally split by one
decimal point, with at least one digit overall.  This models the plain
decimal fragment of `pd.to_numeric` string parsing, which is all the
claims exercise (scientific notation and whitespace stripping are outside
their inputs). -/
def parseDecimal (cs : List Char) : Option ℚ :=
  let intPart := cs.takeWhile Char.isDigit
  let rest := cs.dropWhile Char.isDigit
  match rest with
  | [] => if intPart.isEmpty then none else some ((digitsVal intPart : ℚ))
  | c :: rest2 =>
    if c = '.' then
      if rest2.all Char.isDigit && !(intPart.isEmpty && rest2.isEmpty) then
        some ((digitsVal intPart : ℚ) + (digitsVal rest2 : ℚ) / ((10 : ℚ) ^ rest2.length))
      else none
    else none

/-- Parse a signed decimal string. -/
def parseRatString (s : String) : Option ℚ :=
  match s.toList with
  | [] => none
  | c :: cs =>
    if c = '-' then (parseDecimal cs).map (fun q => -q)
    else if c = '+' then parseDecimal cs
    else parseDecimal (c :: cs)

/-- What `pd.to_numeric(cell, errors="coerce")` yields on one object cell:
numbers pass through, booleans become 1/0, strings are parsed, anything
else (including the missing marker) coerces to NaN (`none`). -/
def parseNumeric : Value → Option ℚ
  | .num q => some q
  | .boolV b => some (if b then 1 else 0)
  | .str s => parseRatString s
  | _ => none

/-- The coerced cell: the numeric parse where it succeeds, missing where
it fails. -/
def coerceCell (v : Value) : Value :=
  match parseNumeric v with
  | some q => .num q
  | none => .missing

/- ## Quantiles, mean, median, mode -/

/-- Insert into a sorted list of rationals. -/
def insertSorted (x : ℚ) : List ℚ → List ℚ
  | [] => [x]
  | y :: ys => if x ≤ y then x :: y :: ys else y :: insertSorted x ys

/-- Ascending insertion sort. -/
def sortQ (l : List ℚ) : List ℚ := l.foldr insertSorted []

/-- Pandas `Series.quantile(q)` with the default linear interpolation: on
the sorted values `s` of length `n`, the result is
`s[i] + g * (s[i+1] - s[i])` where `i = floor(q*(n-1))`, `g` the
fractional part.  The source only calls it on nonempty data (an empty
series yields NaN there and the caller crashes first); we return 0 in
that unused case. -/
def quantileD (l : List ℚ) (q : ℚ) : ℚ :=
  let s := sortQ l
  let n := s.length
  if n = 0 then 0
  else
    let pos : ℚ := q * ((n : ℚ) - 1)
    let i : Nat := pos.floor.toNat
    let g : ℚ := pos - (i : ℚ)
    let lo := s.getD i 0
    let hi := s.getD (i + 1) lo
    lo + g * (hi - lo)

/-- `Series.mean()` over the present values (`none` when every value is
missing, modelling the NaN mean). -/
def meanOfList (l : List ℚ) : Option ℚ :=
  if l.isEmpty then none else some (l.sum / (l.length : ℚ))

/-- `Series.median()` over the present values: the 0.5 quantile with the
same linear interpolation (average of the two middle values for even
length). -/
def medianOfList (l : List ℚ) : Option ℚ :=
  if l.isEmpty then none else some (quantileD l (1 / 2))

/-- Ordering used to pick `mode()[0]`: pandas sorts the tied modes
ascending and the source takes the first.  Within a kind the natural order
is used; across kinds pandas cannot sort and leaves an unspecified order,
which we fix by constructor rank. -/
def vRank : Value → Nat
  | .num _ => 0
  | .str _ => 1
  | .boolV _ => 2
  | .dt _ => 3
  | .missing => 4

def vLTb (a b : Value) : Bool :=
  match a, b with
  | .num x, .num y => decide (x < y)
  | .str x, .str y => decide (x < y)
  | .boolV x, .boolV y => !x && y
  | .dt x, .dt y => decide (x < y)
  | _, _ => decide (vRank a < vRank b)

/-- `Series.mode()[0]` when the column has any present value: the most
frequent present value, smallest first on ties; `none` when the column is
entirely missing (`mode()` is empty and the source skips the fill). -/
def modeOf (cells : List Value) : Option Value :=
  let present := cells.filter (fun v => v != Value.missing)
  present.foldl
    (fun acc v =>
      match acc with
      | none => some v
      | some b =>
        if present.count v > present.count b
            || (present.count v == present.count b && vLTb v b) then some v
        else acc)
    none

/- ## clean_data -/

/-- The statistics dictionary `clean_data` builds and returns. -/
structure CleanStats where
  original_rows : Nat
  original_cols : Nat
  duplicates_removed : Nat
  missing_handled : Nat
  types_converted : Nat
  warnings : List String
  final_rows : Nat
  final_cols : Nat
deriving DecidableEq, Repr

/-- `df.drop_duplicates()`: keep the first occurrence of each row. -/
def dedupDF (d : DataFrame) : DataFrame :=
  ⟨d.header, dropDups [] d.rows⟩

/-- Is a row free of missing cells? -/
def rowComplete (r : List Value) : Bool :=
  r.all (fun v => v != Value.missing)

/-- `df.dropna()`: drop every row containing a missing cell. -/
def dropnaDF (d : DataFrame) : DataFrame :=
  ⟨d.header, d.rows.filter rowComplete⟩

/-- Replace a missing cell by the fill value, when there is one
(`fillna`); present cells and absent fill values leave the cell alone. -/
def fillCell (fv : Option Value) (v : Value) : Value :=
  match v, fv with
  | .missing, some w => w
  | _, _ => v

/-- Per-column fill value of the mean/median policies: only int64/float64
columns that actually have a missing cell are filled, with the aggregate
of their present values (an all-missing column aggregates to NaN, i.e. the
`fillna` is a no-op, modelled as `none`). -/
def numericFills (agg : List ℚ → Option ℚ) (d : DataFrame) (j : Nat) : Option Value :=
  if ((colDtype d j == some DType.int64) || (colDtype d j == some DType.float64))
      && colHasMissing d j then
    (agg (presentRats (colCells d j))).map Value.num
  else none

/-- Names of the object/category columns that contain a missing cell, in
column order — the list the source interpolates into the mean/median
warning (`select_dtypes(['object','category']).columns[...isnull().any()]`). -/
def catNullNames (d : DataFrame) : List String :=
  ((List.range d.header.length).filter
      (fun j => ((colDtype d j == some DType.object) || (colDtype d j == some DType.category))
        && colHasMissing d j)).map (colName d)

/-- Count of int64/float64 columns with at least one missing cell — the
`missing_handled` increment of the mean/median policies. -/
def numericNullCount (d : DataFrame) : Nat :=
  ((List.range d.header.length).filter
      (fun j => ((colDtype d j == some DType.int64) || (colDtype d j == some DType.float64))
        && colHasMissing d j)).length

/-- The warning emitted when mean/median meets text columns with missing
values (verbatim from the source, with `label` standing for the
interpolated policy name). -/
def nonNumericFillWarn (label : String) (names : List String) : String :=
  "⚠️ Phương pháp \x27" ++ label ++ "\x27 không áp dụng cho cột dạng chữ: "
    ++ String.intercalate ", " names ++ ". Các cột này vẫn còn giá trị thiếu."

/-- The informational note of the mode policy (verbatim from the source). -/
def modeFillNote (catF numF : Nat) : String :=
  "ℹ️ Đã điền " ++ toString catF ++ " cột dạng chữ và " ++ toString numF
    ++ " cột số bằng giá trị phổ biến nhất (Mode)."

/-- The `fill_mean`/`fill_median` block of `clean_data` (the two blocks in
the source are identical up to the aggregate and the label): fill the
missing cells of numeric columns, count those columns, and warn about
object/category columns that keep their missing cells. -/
def fillNumericStage (agg : List ℚ → Option ℚ) (label : String) (d : DataFrame) :
    DataFrame × Nat × List String :=
  (⟨d.header, d.rows.map (fun r => mapWithIdx (fun j v => fillCell (numericFills agg d j) v) 0 r)⟩,
    numericNullCount d,
    if catNullNames d = [] then [] else [nonNumericFillWarn label (catNullNames d)])

/-- Per-column fill value of the mode policy: every column with a missing
cell and a nonempty mode. -/
def modeFills (d : DataFrame) (j : Nat) : Option Value :=
  if colHasMissing d j then modeOf (colCells d j) else none

/-- The `fill_mode` block of `clean_data`: fill every column (numeric or
not) that has missing cells and a mode, and emit the informational note
when any non-numeric column was filled. -/
def fillModeStage (d : DataFrame) : DataFrame × Nat × List String :=
  let filledIdx := (List.range d.header.length).filter
    (fun j => colHasMissing d j && (modeOf (colCells d j)).isSome)
  let numF := filledIdx.countP
    (fun j => (colDtype d j == some DType.int64) || (colDtype d j == some DType.float64))
  let catF := filledIdx.length - numF
  (⟨d.header, d.rows.map (fun r => mapWithIdx (fun j v => fillCell (modeFills d j) v) 0 r)⟩,
    filledIdx.length,
    if catF > 0 then [modeFillNote catF numF] else [])

/-- Stage 2 of `clean_data`: the `if/elif` chain on `handle_missing`.
The source has no `else` branch, so an unrecognized policy falls through
and the stage is a silent no-op. -/
def missingStage (hm : String) (d : DataFrame) : DataFrame × Nat × List String :=
  if hm = "drop" then
    let d2 := dropnaDF d
    (d2, d.rows.length - d2.rows.length, [])
  else if hm = "fill_mean" then fillNumericStage meanOfList "Mean" d
  else if hm = "fill_median" then fillNumericStage medianOfList "Median" d
  else if hm = "fill_mode" then fillModeStage d
  else (d, 0, [])

/-- How many cells of column `j` survive `pd.to_numeric(..., errors="coerce")`
(`converted.notna().sum()`). -/
def parsedCount (d : DataFrame) (j : Nat) : Nat :=
  (colCells d j).countP (fun v => (parseNumeric v).isSome)

/-- The conversion test of stage 3: the column is object-typed and the
parsed count divided by `len(df_cleaned)` — the total row count, missing
cells included in the denominator — exceeds 0.8.  On an empty frame the
division raises ZeroDivisionError, which the bare `except` swallows,
leaving the column unchanged; hence the positivity guard. -/
def shouldConvert (d : DataFrame) (j : Nat) : Bool :=
  (colDtype d j == some DType.object)
    && decide (0 < d.rows.length)
    && decide (((parsedCount d j : ℚ) / (d.rows.length : ℚ)) > 4 / 5)

/-- Dtype of a converted column, as `pd.to_numeric` assigns it: int64 when
every value is a whole number and none is missing, float64 otherwise. -/
def convertedDType (d : DataFrame) (j : Nat) : DType :=
  let cs := (colCells d j).map coerceCell
  if cs.any (fun v => v == Value.missing) then DType.float64
  else if cs.all (fun v => match v with | .num q => q.den == 1 | _ => true) then DType.int64
  else DType.float64

/-- Stage 3 of `clean_data` (`convert_types`): every object column whose
parse quota exceeds 80% of the row count is replaced by its numeric parse,
unparsed values becoming missing. -/
def convertStage (d : DataFrame) : DataFrame × Nat :=
  (⟨mapWithIdx (fun j p => if shouldConvert d j then (p.1, convertedDType d j) else p) 0 d.header,
      d.rows.map (fun r => mapWithIdx (fun j v => if shouldConvert d j then coerceCell v else v) 0 r)⟩,
    (List.range d.header.length).countP (shouldConvert d))

/-- `clean_data(df, remove_duplicates, handle_missing, convert_types)`:
copy the frame, drop duplicates, handle missing values by policy, coerce
types, and assemble the statistics dictionary. -/
def clean_data (df : DataFrame) (remove_duplicates : Bool) (handle_missing : String)
    (convert_types : Bool) : DataFrame × CleanStats :=
  let df_cleaned := df
  let original_rows := df.rows.length
  let original_cols := df.header.length
  let d1 := if remove_duplicates then dedupDF df_cleaned else df_cleaned
  let dups := if remove_duplicates then df_cleaned.rows.length - d1.rows.length else 0
  let s1 := missingStage handle_missing d1
  let d2 := s1.1
  let d3 := if convert_types then (convertStage d2).1 else d2
  let tc := if convert_types then (convertStage d2).2 else 0
  (d3, ⟨original_rows, original_cols, dups, s1.2.1, tc, s1.2.2, d3.rows.length, d3.header.length⟩)

/- ## clean_data with explicit storage (frame aliasing) -/

/-- `clean_data` executed over an explicit store of dataframes, to make the
source's aliasing visible: the heap is the list of live frame objects,
addresses are indices.  `df.copy()` is a deep copy, so it allocates a
fresh slot holding the value of slot `a`; every subsequent statement of
the function body — `drop_duplicates`, the `fillna(..., inplace=True)`
loops, the column assignments of type coercion — writes through the
address of `df_cleaned` only, `df` itself is only read.  Returns the
final heap, the address of the returned frame, and the statistics. -/
def clean_data_heap (heap : List DataFrame) (a : Nat) (remove_duplicates : Bool)
    (handle_missing : String) (convert_types : Bool) : List DataFrame × Nat × CleanStats :=
  let df := heap.getD a default
  let b := heap.length
  let h1 := heap ++ [df]
  let original_rows := df.rows.length
  let original_cols := df.header.length
  let h2 := if remove_duplicates then h1.set b (dedupDF (h1.getD b default)) else h1
  let dups := if remove_duplicates then
      (h1.getD b default).rows.length - (h2.getD b default).rows.length
    else 0
  let s1 := missingStage handle_missing (h2.getD b default)
  let h3 := h2.set b s1.1
  let h4 := if convert_types then h3.set b (convertStage (h3.getD b default)).1 else h3
  let tc := if convert_types then (convertStage (h3.getD b default)).2 else 0
  (h4, b,
    ⟨original_rows, original_cols, dups, s1.2.1, tc, s1.2.2,
      (h4.getD b default).rows.length, (h4.getD b default).header.length⟩)

/- ## detect_outliers -/

/-- The statistics dictionary `detect_outliers` returns. -/
structure OutlierStats where
  total_values : Nat
  outliers_count : Nat
  outliers_percentage : ℚ
  lower_bound : ℚ
  upper_bound : ℚ
  Q1 : ℚ
  Q3 : ℚ
  IQR : ℚ
deriving DecidableEq, Repr

/-- Python's `f"{x:.2f}"` on an exact value: round to hundredths (ties to
even, as float formatting does) and print with two decimals. -/
def fmt2 (x : ℚ) : String :=
  let s := x * 100
  let f : ℤ := s.floor
  let r := s - (f : ℚ)
  let n : ℤ :=
    if r < 1 / 2 then f
    else if 1 / 2 < r then f + 1
    else if f % 2 = 0 then f else f + 1
  let sign := if n < 0 then "-" else ""
  let a := n.natAbs
  let m := a % 100
  sign ++ toString (a / 100) ++ "." ++ (if m < 10 then "0" else "") ++ toString m

/-- The comparison `df[column] < bound` on one cell: NaN (and any
non-numeric junk) compares false, as in pandas. -/
def vltQ (v : Value) (c : ℚ) : Bool :=
  match v with
  | .num x => decide (x < c)
  | _ => false

/-- The comparison `df[column] > bound` on one cell. -/
def vgtQ (v : Value) (c : ℚ) : Bool :=
  match v with
  | .num x => decide (x > c)
  | _ => false

/-- `detect_outliers(df, column)` (IQR method).  Returns `.ok none` for the
`(None, None)` early exit (absent or non-numeric column), `.error` for an
uncaught Python exception, and `.ok (some (outlier rows with reason,
stats))` otherwise.  When the column has no present value the quantiles
are NaN, the all-false mask selects no rows, and the percentage
computation divides `len(outliers_df)` by `len(data) == 0`, raising
ZeroDivisionError. -/
def detect_outliers (df : DataFrame) (column : String) :
    Except String (Option (List (List Value × String) × OutlierStats)) :=
  match getColIdx df column with
  | none => .ok none
  | some j =>
    if (colDtype df j == some DType.int64) || (colDtype df j == some DType.float64) then
      let data := presentRats (colCells df j)
      if data.length = 0 then .error "ZeroDivisionError"
      else
        let q1 := quantileD data (1 / 4)
        let q3 := quantileD data (3 / 4)
        let iqr := q3 - q1
        let lb := q1 - 3 / 2 * iqr
        let ub := q3 + 3 / 2 * iqr
        let outRows := df.rows.filter
          (fun r => vltQ (r.getD j Value.missing) lb || vgtQ (r.getD j Value.missing) ub)
        let out := outRows.map
          (fun r => (r, if vltQ (r.getD j Value.missing) lb then "Below " ++ fmt2 lb
            else "Above " ++ fmt2 ub))
        .ok (some (out,
          ⟨data.length, out.length, ((out.length : ℚ) / (data.length : ℚ)) * 100,
            lb, ub, q1, q3, iqr⟩))
    else .ok none

/- ## suggest_chart_type -/

/-- `suggest_chart_type(x_col, y_col, df)`.  Python computes
`y_is_numeric = y_col in col_types['numeric'] if y_col else False`: the
truthiness test is false both for `None` and for the empty string, while
the branch below tests `y_col is None` only. -/
def suggest_chart_type (x_col : String) (y_col : Option String) (df : DataFrame) : String :=
  let col_types := analyze_column_types df
  let x_is_numeric := decide (x_col ∈ col_types.numeric)
  let y_is_numeric :=
    match y_col with
    | none => false
    | some s => if s = "" then false else decide (s ∈ col_types.numeric)
  match y_col with
  | none => if x_is_numeric then "histogram" else "bar"
  | some _ =>
    if x_is_numeric && y_is_numeric then "scatter"
    else if !x_is_numeric && y_is_numeric then "box"
    else if x_is_numeric && !y_is_numeric then "box"
    else "bar"

/-- Decidable equality of `Except` results, so that concrete runs of the
fallible operations can be checked by evaluation. -/
def exceptDecEq {ε α : Type} [DecidableEq ε] [DecidableEq α] : DecidableEq (Except ε α) :=
  fun a b =>
    match a, b with
    | .ok x, .ok y =>
      if h : x = y then .isTrue (by rw [h]) else .isFalse (by intro hc; cases hc; exact h rfl)
    | .error x, .error y =>
      if h : x = y then .isTrue (by rw [h]) else .isFalse (by intro hc; cases hc; exact h rfl)
    | .ok _, .error _ => .isFalse (by intro hc; cases hc)
    | .error _, .ok _ => .isFalse (by intro hc; cases hc)

instance {ε α : Type} [DecidableEq ε] [DecidableEq α] : DecidableEq (Except ε α) := exceptDecEq

instance : DecidableEq (Except String (Option (List (List Value × String) × OutlierStats))) :=
  exceptDecEq

/- ## Concrete frames used by witnesses and counterexamples -/

/-- One int64 column holding the spec's outlier test vector [1,2,3,4,5,100]. -/
def df6 : DataFrame :=
  ⟨[("v", DType.int64)],
    [[Value.num 1], [Value.num 2], [Value.num 3], [Value.num 4], [Value.num 5], [Value.num 100]]⟩

/-- The outlier-row list `detect_outliers` produces on `df6`. -/
def out6 : List (List Value × String) := [([Value.num 100], "Above 8.50")]

/-- The statistics `detect_outliers` produces on `df6`. -/
def st6 : OutlierStats :=
  ⟨6, 1, 50 / 3, -3 / 2, 17 / 2, 9 / 4, 19 / 4, 5 / 2⟩

/-- A text column whose four present values all parse, plus one missing cell. -/
def df5 : DataFrame :=
  ⟨[("c", DType.object)],
    [[Value.str "1"], [Value.str "2"], [Value.str "3"], [Value.str "4"], [Value.missing]]⟩

/-- The spec's 75%-parse text column ["1","2","3","x"]. -/
def df24 : DataFrame :=
  ⟨[("c", DType.object)], [[Value.str "1"], [Value.str "2"], [Value.str "3"], [Value.str "x"]]⟩

/-- The spec's 100%-parse text column ["1","2","3","4"]. -/
def df44 : DataFrame :=
  ⟨[("c", DType.object)], [[Value.str "1"], [Value.str "2"], [Value.str "3"], [Value.str "4"]]⟩

/-- A text column ["1",...,"5","x"] on which type coercion manufactures a
missing cell (5/6 > 80% of the rows parse). -/
def df7 : DataFrame :=
  ⟨[("c", DType.object)],
    [[Value.str "1"], [Value.str "2"], [Value.str "3"], [Value.str "4"], [Value.str "5"],
      [Value.str "x"]]⟩

/-- One float64 column with a single missing cell. -/
def dfm : DataFrame := ⟨[("a", DType.float64)], [[Value.missing]]⟩

/-- A float64 column whose values are all missing. -/
def dfAllNaN : DataFrame := ⟨[("a", DType.float64)], [[Value.missing], [Value.missing]]⟩

/-- A text column, for the non-numeric early exit of outlier detection. -/
def dfTxt : DataFrame := ⟨[("s", DType.object)], [[Value.str "x"], [Value.str "y"]]⟩

/-- A datetime column with a missing cell. -/
def dfD : DataFrame := ⟨[("ts", DType.datetime64)], [[Value.missing]]⟩

/-- A boolean column. -/
def dfB : DataFrame := ⟨[("flag", DType.boolT)], [[Value.boolV true]]⟩

/-- A numeric column whose name is the empty string. -/
def dfE : DataFrame := ⟨[("", DType.float64)], [[Value.num 1]]⟩

/-- A numeric and a text column, both with a missing cell. -/
def dfMix : DataFrame :=
  ⟨[("a", DType.float64), ("b", DType.object)],
    [[Value.num 1, Value.missing], [Value.missing, Value.str "x"]]⟩

/-- Three columns of the three classified dtypes. -/
def df3c : DataFrame :=
  ⟨[("a", DType.int64), ("b", DType.object), ("t", DType.datetime64)], [[]]⟩

/-- `df10`: the `df6` data plus a row whose value in the column is missing. -/
def df10 : DataFrame :=
  ⟨[("v", DType.float64)],
    [[Value.num 1], [Value.num 2], [Value.num 3], [Value.num 4], [Value.num 5], [Value.num 100],
      [Value.missing]]⟩

/-- The outlier-row list `detect_outliers` produces on `df10`. -/
def out10 : List (List Value × String) := [([Value.num 100], "Above 8.50")]

/- ## Counterexamples and failing-input evaluations -/

/-- C1 counterexample: on a frame with one missing cell and the
unrecognized policy "invalid", `clean_data` does not fail — the `if/elif`
chain has no `else`, so it silently returns the frame with its missing
value untouched (and no warning). -/
theorem clean_data_invalid_policy_silent :
    clean_data dfm false "invalid" false = (dfm, ⟨1, 1, 0, 0, 0, [], 1, 1⟩)
      ∧ missingCountCol dfm 0 = 1 := by
  decide

/-- C2 counterexample: on ["1","2","3","4",missing] every non-missing
value parses (share 1 > 0.8), yet the column is not converted — the
source divides by `len(df_cleaned)` (5), giving 4/5, not strictly above
0.8. -/
theorem convertStage_denominator_total_rows :
    convertStage df5 = (df5, 0)
      ∧ (((((colCells df5 0).filter (fun v => v != Value.missing)).countP
            (fun v => (parseNumeric v).isSome) : ℚ) /
          ((((colCells df5 0).filter (fun v => v != Value.missing)).length : ℚ))) > 4 / 5) := by
  decide

/-- C3 counterexample: a boolean column is omitted from all three sets of
the classification — `select_dtypes` is only asked for int64/float64,
object/category and datetime64. -/
theorem analyze_column_types_misses_bool :
    "flag" ∈ dfB.header.map Prod.fst
      ∧ "flag" ∉ (analyze_column_types dfB).numeric
      ∧ "flag" ∉ (analyze_column_types dfB).categorical
      ∧ "flag" ∉ (analyze_column_types dfB).datetime := by
  decide

/-- C4 counterexample: a datetime column with a missing cell is left
untouched by fill_mean, but no warning is emitted — the warning list is
built from object/category columns only. -/
theorem fill_mean_datetime_no_warning :
    (missingStage "fill_mean" dfD).2.2 = []
      ∧ missingCountCol dfD 0 = 1
      ∧ colDtype dfD 0 = some DType.datetime64 := by
  decide

/-- C5 failing-input evaluation: on a float64 column whose values are all
missing, `detect_outliers` raises ZeroDivisionError (the percentage
divides by `len(data) == 0`) instead of completing; the absent-column and
non-numeric-column early exits do return the explicit `(None, None)`. -/
theorem detect_outliers_all_missing_raises :
    detect_outliers dfAllNaN "a" = .error "ZeroDivisionError"
      ∧ detect_outliers dfAllNaN "zz" = .ok none
      ∧ detect_outliers dfTxt "s" = .ok none := by
  decide

/-- C6 counterexample: on [1,2,3,4,5,100] the flagged row's reason string
is "Above 8.50" — the literal the source formats is
`f"Above {upper_bound:.2f}"`, not the claimed "above upper bound X.XX"
form. -/
theorem detect_outliers_reason_format :
    detect_outliers df6 "v" = .ok (some (out6, st6))
      ∧ ([Value.num 100], "above upper bound 8.50") ∉ out6
      ∧ ([Value.num 100], "Above 8.50") ∈ out6 := by
  decide

/-- C7 counterexample: with type coercion enabled, drop-cleaning is not
idempotent.  On the text column ["1","2","3","4","5","x"], the first pass
drops nothing but coercion converts the column (5/6 > 0.8) and turns "x"
into a missing cell; the second pass then drops that row. -/
theorem clean_data_drop_not_idempotent_with_coercion :
    (clean_data (clean_data df7 true "drop" true).1 true "drop" true).1
        ≠ (clean_data df7 true "drop" true).1
      ∧ (clean_data df7 true "drop" true).1.rows.length = 6
      ∧ (clean_data (clean_data df7 true "drop" true).1 true "drop" true).1.rows.length = 5 := by
  decide

/-- C8 counterexample: a numeric column named "" — Python's truthiness
test `if y_col` treats the empty string like an absent y, so
`y_is_numeric` is False and the recommendation is "box" although both x
and y are classified numeric (the table says "scatter"). -/
theorem suggest_chart_type_empty_y_name :
    suggest_chart_type "" (some "") dfE = "box"
      ∧ "" ∈ (analyze_column_types dfE).numeric
      ∧ "box" ≠ "scatter" := by
  decide

/- ## C1: unrecognized missing policies -/

/-- C1 (amended): for every missing_policy outside {drop, fill_mean,
fill_median, fill_mode}, the `if/elif` chain of `clean_data` has no
matching branch and no `else`, so missing-value handling is silently
skipped — no error is raised, no cell changes, no warning and a zero
`missing_handled` count are reported.  (For the four recognized policies
the stage is a total function of the data, so it never raises on data
content.) -/
theorem clean_data_unrecognized_policy_noop (hm : String) (d : DataFrame)
    (h1 : hm ≠ "drop") (h2 : hm ≠ "fill_mean") (h3 : hm ≠ "fill_median")
    (h4 : hm ≠ "fill_mode") :
    missingStage hm d = (d, 0, [])
      ∧ ∀ (df : DataFrame) (rd ct : Bool),
          (clean_data df rd hm ct).2.missing_handled = 0
            ∧ (clean_data df rd hm ct).2.warnings = [] := by
  have hs : ∀ d2 : DataFrame, missingStage hm d2 = (d2, 0, []) := by
    intro d2
    unfold missingStage
    rw [if_neg h1, if_neg h2, if_neg h3, if_neg h4]
  refine ⟨hs d, fun df rd ct => ⟨?_, ?_⟩⟩
  · show (missingStage hm (if rd then dedupDF df else df)).2.1 = 0
    rw [hs]
  · show (missingStage hm (if rd then dedupDF df else df)).2.2 = []
    rw [hs]

/-- Witness for C1 at the policy "bogus" and a frame with a missing cell. -/
theorem clean_data_unrecognized_policy_noop_witness :
    missingStage "bogus" dfm = (dfm, 0, [])
      ∧ (clean_data dfm true "bogus" true).2.missing_handled = 0
      ∧ (clean_data dfm true "bogus" true).2.warnings = [] := by
  obtain ⟨h, hrest⟩ := clean_data_unrecognized_policy_noop "bogus" dfm
    (by decide) (by decide) (by decide) (by decide)
  exact ⟨h, (hrest dfm true true).1, (hrest dfm true true).2⟩

/- ## C3: the classification partitions the supported dtypes -/

theorem mem_select_dtypes_iff (d : DataFrame) (S : List DType) (c : String) :
    c ∈ select_dtypes d S ↔ ∃ t, (c, t) ∈ d.header ∧ t ∈ S := by
  unfold select_dtypes
  rw [List.mem_map]
  constructor
  · rintro ⟨p, hp, rfl⟩
    rw [List.mem_filter] at hp
    exact ⟨p.2, by simpa using hp.1, by simpa using hp.2⟩
  · rintro ⟨t, hmem, hS⟩
    exact ⟨(c, t), List.mem_filter.2 ⟨hmem, by simpa using hS⟩, rfl⟩

theorem header_key_unique :
    ∀ (l : List (String × DType)), (l.map Prod.fst).Nodup →
      ∀ (c : String) (t₁ t₂ : DType), (c, t₁) ∈ l → (c, t₂) ∈ l → t₁ = t₂ := by
  intro l
  induction l with
  | nil => intro _ c t₁ t₂ h1 _; exact absurd h1 (List.not_mem_nil _)
  | cons hd tl ih =>
    intro hnd c t₁ t₂ h1 h2
    rw [List.map_cons, List.nodup_cons] at hnd
    rcases List.mem_cons.1 h1 with rfl | h1t
    · rcases List.mem_cons.1 h2 with h2h | h2t
      · exact congrArg Prod.snd h2h.symm
      · exact absurd (List.mem_map.2 ⟨(c, t₂), h2t, rfl⟩) hnd.1
    · rcases List.mem_cons.1 h2 with rfl | h2t
      · exact absurd (List.mem_map.2 ⟨(c, t₁), h1t, rfl⟩) hnd.1
      · exact ih hnd.2 c t₁ t₂ h1t h2t

theorem not_mem_select_dtypes (d : DataFrame) (hnd : (d.header.map Prod.fst).Nodup)
    (c : String) (t : DType) (hmem : (c, t) ∈ d.header) (S : List DType) (ht : t ∉ S) :
    c ∉ select_dtypes d S := by
  intro hc
  obtain ⟨t2, hmem2, hS2⟩ := (mem_select_dtypes_iff d S c).1 hc
  exact ht (header_key_unique d.header hnd c t2 t hmem2 hmem ▸ hS2)

/-- C3 (amended): for every dataset whose column names are distinct and
whose columns' storage dtypes are among the five the source asks
`select_dtypes` for (int64, float64, object, category, datetime64), the
classification is a partition: every column name lands in exactly one of
{numeric, categorical, datetime}.  (Columns of other dtypes — boolean,
other integer/float widths — are omitted from all three sets, see the
counterexample.) -/
theorem analyze_column_types_partition (df : DataFrame)
    (hsup : ∀ p ∈ df.header,
      p.2 ∈ [DType.int64, DType.float64, DType.object, DType.category, DType.datetime64])
    (hnd : (df.header.map Prod.fst).Nodup) :
    ∀ c ∈ df.header.map Prod.fst,
      (c ∈ (analyze_column_types df).numeric ∧ c ∉ (analyze_column_types df).categorical
          ∧ c ∉ (analyze_column_types df).datetime)
        ∨ (c ∉ (analyze_column_types df).numeric ∧ c ∈ (analyze_column_types df).categorical
          ∧ c ∉ (analyze_column_types df).datetime)
        ∨ (c ∉ (analyze_column_types df).numeric ∧ c ∉ (analyze_column_types df).categorical
          ∧ c ∈ (analyze_column_types df).datetime) := by
  intro c hc
  obtain ⟨p, hp, hfst⟩ := List.mem_map.1 hc
  have hp2 : (c, p.2) ∈ df.header := by rw [← hfst]; exact hp
  have ht := hsup p hp
  have hin : ∀ S : List DType, p.2 ∈ S → c ∈ select_dtypes df S :=
    fun S hS => (mem_select_dtypes_iff df S c).2 ⟨p.2, hp2, hS⟩
  have hout : ∀ S : List DType, p.2 ∉ S → c ∉ select_dtypes df S :=
    fun S hS => not_mem_select_dtypes df hnd c p.2 hp2 S hS
  simp only [List.mem_cons, List.not_mem_nil, or_false] at ht
  rcases ht with h | h | h | h | h
  · exact Or.inl ⟨hin _ (by rw [h]; decide), hout _ (by rw [h]; decide),
      hout _ (by rw [h]; decide)⟩
  · exact Or.inl ⟨hin _ (by rw [h]; decide), hout _ (by rw [h]; decide),
      hout _ (by rw [h]; decide)⟩
  · exact Or.inr (Or.inl ⟨hout _ (by rw [h]; decide), hin _ (by rw [h]; decide),
      hout _ (by rw [h]; decide)⟩)
  · exact Or.inr (Or.inl ⟨hout _ (by rw [h]; decide), hin _ (by rw [h]; decide),
      hout _ (by rw [h]; decide)⟩)
  · exact Or.inr (Or.inr ⟨hout _ (by rw [h]; decide), hout _ (by rw [h]; decide),
      hin _ (by rw [h]; decide)⟩)

/-- Witness for C3 on a three-column frame of the three classified kinds,
instantiated at its first column. -/
theorem analyze_column_types_partition_witness :
    ("a" ∈ (analyze_column_types df3c).numeric ∧ "a" ∉ (analyze_column_types df3c).categorical
        ∧ "a" ∉ (analyze_column_types df3c).datetime)
      ∨ ("a" ∉ (analyze_column_types df3c).numeric ∧ "a" ∈ (analyze_column_types df3c).categorical
        ∧ "a" ∉ (analyze_column_types df3c).datetime)
      ∨ ("a" ∉ (analyze_column_types df3c).numeric ∧ "a" ∉ (analyze_column_types df3c).categorical
        ∧ "a" ∈ (analyze_column_types df3c).datetime) :=
  analyze_column_types_partition df3c (by decide) (by decide) "a" (by decide)

/- ## C4: fill_mean / fill_median leave non-numeric columns alone -/

theorem fillCell_none (v : Value) : fillCell none v = v := by
  cases v <;> rfl

theorem colCells_fill_of_none (F : Nat → Option Value) (d : DataFrame) (j : Nat)
    (hF : F j = none) :
    colCells ⟨d.header, d.rows.map (fun r => mapWithIdx (fun i v => fillCell (F i) v) 0 r)⟩ j
      = colCells d j := by
  show (d.rows.map (fun r => mapWithIdx (fun i v => fillCell (F i) v) 0 r)).map
      (fun r => r.getD j Value.missing) = d.rows.map (fun r => r.getD j Value.missing)
  rw [List.map_map]
  refine List.map_congr_left fun r _ => ?_
  show (mapWithIdx (fun i v => fillCell (F i) v) 0 r).getD j Value.missing
    = r.getD j Value.missing
  rw [getD_eq_get?, getD_eq_get?, mapWithIdx_get?, Nat.zero_add]
  cases r.get? j with
  | none => rfl
  | some v =>
    show fillCell (F j) v = v
    rw [hF, fillCell_none]

/-- C4 (amended): under `fill_mean` and `fill_median`, every
object/category/datetime column is left fully unchanged (same cells, same
dtype, same missing count), and the stage's warning list is exactly one
message naming the object/category columns with missing cells when any
exist, and empty otherwise — datetime columns are never listed, since the
source builds the list via `select_dtypes(['object','category'])`. -/
theorem fill_mean_median_nonnumeric_untouched (d : DataFrame) (hm : String) (j : Nat)
    (hhm : hm = "fill_mean" ∨ hm = "fill_median")
    (hdt : colDtype d j = some DType.object ∨ colDtype d j = some DType.category
      ∨ colDtype d j = some DType.datetime64) :
    colCells (missingStage hm d).1 j = colCells d j
      ∧ missingCountCol (missingStage hm d).1 j = missingCountCol d j
      ∧ colDtype (missingStage hm d).1 j = colDtype d j
      ∧ (missingStage hm d).2.2 = (if catNullNames d = [] then []
          else [nonNumericFillWarn (if hm = "fill_mean" then "Mean" else "Median")
            (catNullNames d)]) := by
  have hfill : ∀ agg : List ℚ → Option ℚ, numericFills agg d j = none := by
    intro agg
    unfold numericFills
    have hb : ((colDtype d j == some DType.int64)
        || (colDtype d j == some DType.float64)) = false := by
      rcases hdt with h | h | h <;> rw [h] <;> rfl
    rw [hb, Bool.false_and, if_neg (by simp)]
  rcases hhm with rfl | rfl
  · rw [show missingStage "fill_mean" d = fillNumericStage meanOfList "Mean" d from rfl]
    have hc : colCells (fillNumericStage meanOfList "Mean" d).1 j = colCells d j :=
      colCells_fill_of_none (numericFills meanOfList d) d j (hfill meanOfList)
    exact ⟨hc, by unfold missingCountCol; rw [hc], rfl, rfl⟩
  · rw [show missingStage "fill_median" d = fillNumericStage medianOfList "Median" d from rfl]
    have hc : colCells (fillNumericStage medianOfList "Median" d).1 j = colCells d j :=
      colCells_fill_of_none (numericFills medianOfList d) d j (hfill medianOfList)
    exact ⟨hc, by unfold missingCountCol; rw [hc], rfl, rfl⟩

/-- Witness for C4: fill_mean on a frame with a numeric column and an
object column, both with missing cells, instantiated at the object
column; the warning names exactly column "b". -/
theorem fill_mean_median_nonnumeric_untouched_witness :
    (colCells (missingStage "fill_mean" dfMix).1 1 = colCells dfMix 1
      ∧ missingCountCol (missingStage "fill_mean" dfMix).1 1 = missingCountCol dfMix 1
      ∧ colDtype (missingStage "fill_mean" dfMix).1 1 = colDtype dfMix 1
      ∧ (missingStage "fill_mean" dfMix).2.2 = (if catNullNames dfMix = [] then []
          else [nonNumericFillWarn (if "fill_mean" = "fill_mean" then "Mean" else "Median")
            (catNullNames dfMix)]))
      ∧ catNullNames dfMix = ["b"]
      ∧ missingCountCol dfMix 1 = 1 :=
  ⟨fill_mean_median_nonnumeric_untouched dfMix "fill_mean" 1 (by decide) (by decide),
    by decide, by decide⟩

/- ## C2: the type-coercion threshold -/

theorem coerceCell_missing : coerceCell Value.missing = Value.missing := rfl

theorem colCells_convertStage (d : DataFrame) (j : Nat) :
    colCells (convertStage d).1 j
      = if shouldConvert d j then (colCells d j).map coerceCell else colCells d j := by
  have hrow : ∀ r : List Value,
      (mapWithIdx (fun i v => if shouldConvert d i then coerceCell v else v) 0 r).getD j
          Value.missing
        = if shouldConvert d j then coerceCell (r.getD j Value.missing)
          else r.getD j Value.missing := by
    intro r
    rw [getD_eq_get?, getD_eq_get?, mapWithIdx_get?, Nat.zero_add]
    cases r.get? j with
    | none =>
      by_cases hsc : shouldConvert d j
      · rw [if_pos hsc]; rfl
      · rw [if_neg hsc]; rfl
    | some v =>
      by_cases hsc : shouldConvert d j
      · show (if shouldConvert d j then coerceCell v else v) = _
        rw [if_pos hsc, if_pos hsc]
        rfl
      · show (if shouldConvert d j then coerceCell v else v) = _
        rw [if_neg hsc, if_neg hsc]
        rfl
  show (d.rows.map (fun r => mapWithIdx (fun i v => if shouldConvert d i then coerceCell v
      else v) 0 r)).map (fun r => r.getD j Value.missing) = _
  rw [List.map_map]
  by_cases hsc : shouldConvert d j
  · rw [if_pos hsc]
    show _ = (d.rows.map (fun r => r.getD j Value.missing)).map coerceCell
    rw [List.map_map]
    refine List.map_congr_left fun r _ => ?_
    show (mapWithIdx _ 0 r).getD j Value.missing = coerceCell (r.getD j Value.missing)
    rw [hrow r, if_pos hsc]
  · rw [if_neg hsc]
    refine List.map_congr_left fun r _ => ?_
    show (mapWithIdx _ 0 r).getD j Value.missing = r.getD j Value.missing
    rw [hrow r, if_neg hsc]

/-- C2 (amended): with coercion enabled, an object column is replaced by
its numeric parse (failed parses becoming missing) if and only if the
number of parseable cells divided by the **total row count** — missing
cells counted in the denominator, as the source divides by
`len(df_cleaned)` — strictly exceeds 0.8; otherwise the column (cells and
dtype) is unchanged.  ["1","2","3","x"] (3/4) stays unconverted and
["1","2","3","4"] (4/4) converts, as the claim's examples state. -/
theorem convertStage_object_column_spec (d : DataFrame) (j : Nat)
    (hdt : colDtype d j = some DType.object) :
    (shouldConvert d j = true ↔
        (0 < d.rows.length ∧ ((parsedCount d j : ℚ) / (d.rows.length : ℚ) > 4 / 5)))
      ∧ (shouldConvert d j = true →
          colCells (convertStage d).1 j = (colCells d j).map coerceCell)
      ∧ (shouldConvert d j = false →
          colCells (convertStage d).1 j = colCells d j
            ∧ colDtype (convertStage d).1 j = some DType.object)
      ∧ (∀ v, parseNumeric v = none → coerceCell v = Value.missing) := by
  refine ⟨?_, ?_, ?_, ?_⟩
  · unfold shouldConvert
    rw [hdt]
    simp [Bool.and_eq_true, decide_eq_true_eq]
  · intro hsc
    rw [colCells_convertStage, if_pos hsc]
  · intro hsc
    refine ⟨by rw [colCells_convertStage, if_neg (by simp [hsc])], ?_⟩
    obtain ⟨p, hp⟩ : ∃ p, d.header.get? j = some p := by
      unfold colDtype at hdt
      cases hh : d.header.get? j with
      | none => rw [hh] at hdt; cases hdt
      | some p => exact ⟨p, rfl⟩
    have hpd : p.2 = DType.object := by
      unfold colDtype at hdt
      rw [hp] at hdt
      simpa using hdt
    show ((mapWithIdx (fun i q => if shouldConvert d i then (q.1, convertedDType d i) else q) 0
        d.header).get? j).map Prod.snd = some DType.object
    rw [mapWithIdx_get?, Nat.zero_add, hp]
    show some (if shouldConvert d j then (p.1, convertedDType d j) else p).2 = some DType.object
    rw [hsc]
    simp [hpd]
  · intro v h
    unfold coerceCell
    rw [h]

/-- Witness for C2 at the claim's own examples: ["1","2","3","4"]
converts (ratio 1 > 0.8), ["1","2","3","x"] does not (ratio 3/4). -/
theorem convertStage_object_column_spec_witness :
    ((shouldConvert df44 0 = true ↔
        (0 < df44.rows.length ∧ ((parsedCount df44 0 : ℚ) / (df44.rows.length : ℚ) > 4 / 5)))
      ∧ (shouldConvert df44 0 = true →
          colCells (convertStage df44).1 0 = (colCells df44 0).map coerceCell)
      ∧ (shouldConvert df44 0 = false →
          colCells (convertStage df44).1 0 = colCells df44 0
            ∧ colDtype (convertStage df44).1 0 = some DType.object)
      ∧ (∀ v, parseNumeric v = none → coerceCell v = Value.missing))
      ∧ shouldConvert df44 0 = true
      ∧ shouldConvert df24 0 = false
      ∧ (convertStage df44).1.rows = [[Value.num 1], [Value.num 2], [Value.num 3], [Value.num 4]]
      ∧ convertStage df24 = (df24, 0) :=
  ⟨convertStage_object_column_spec df44 0 (by decide), by decide, by decide, by decide, by decide⟩

/- ## C7: drop-cleaning is idempotent when coercion is off -/

/-- C7 (amended): with type coercion disabled, drop-cleaning is
idempotent — for every frame and either duplicate-removal setting, a
second pass returns the first pass's frame unchanged, removing zero
duplicates and zero missing rows.  (With coercion enabled idempotence
fails, because coercion can manufacture missing cells; see the
counterexample.) -/
theorem clean_data_drop_idempotent_no_coercion (df : DataFrame) (rd : Bool) :
    (clean_data (clean_data df rd "drop" false).1 rd "drop" false).1
        = (clean_data df rd "drop" false).1
      ∧ (clean_data (clean_data df rd "drop" false).1 rd "drop" false).2.duplicates_removed = 0
      ∧ (clean_data (clean_data df rd "drop" false).1 rd "drop" false).2.missing_handled = 0 := by
  cases rd
  · have hF : (clean_data df false "drop" false).1
        = ⟨df.header, df.rows.filter rowComplete⟩ := rfl
    have hF2 : (clean_data (⟨df.header, df.rows.filter rowComplete⟩ : DataFrame)
        false "drop" false).1
          = ⟨df.header, (df.rows.filter rowComplete).filter rowComplete⟩ := rfl
    have hmh : (clean_data (⟨df.header, df.rows.filter rowComplete⟩ : DataFrame)
        false "drop" false).2.missing_handled
          = (df.rows.filter rowComplete).length
            - ((df.rows.filter rowComplete).filter rowComplete).length := rfl
    have hdup : (clean_data (⟨df.header, df.rows.filter rowComplete⟩ : DataFrame)
        false "drop" false).2.duplicates_removed = 0 := rfl
    have hff : (df.rows.filter rowComplete).filter rowComplete = df.rows.filter rowComplete :=
      List.filter_eq_self.2 fun a ha => List.of_mem_filter ha
    exact ⟨by rw [hF, hF2, hff], by rw [hF, hdup],
      by rw [hF, hmh, hff, Nat.sub_self]⟩
  · have hF : (clean_data df true "drop" false).1
        = ⟨df.header, (dropDups [] df.rows).filter rowComplete⟩ := rfl
    have hF2 : (clean_data (⟨df.header, (dropDups [] df.rows).filter rowComplete⟩ : DataFrame)
        true "drop" false).1
          = ⟨df.header, (dropDups [] ((dropDups [] df.rows).filter rowComplete)).filter
              rowComplete⟩ := rfl
    have hdup : (clean_data (⟨df.header,
        (dropDups [] df.rows).filter rowComplete⟩ : DataFrame) true "drop" false).2.duplicates_removed
          = ((dropDups [] df.rows).filter rowComplete).length
            - (dropDups [] ((dropDups [] df.rows).filter rowComplete)).length := rfl
    have hmh : (clean_data (⟨df.header,
        (dropDups [] df.rows).filter rowComplete⟩ : DataFrame) true "drop" false).2.missing_handled
          = (dropDups [] ((dropDups [] df.rows).filter rowComplete)).length
            - ((dropDups [] ((dropDups [] df.rows).filter rowComplete)).filter
                rowComplete).length := rfl
    have hnd : ((dropDups [] df.rows).filter rowComplete).Nodup :=
      (dropDups_nodup [] df.rows).filter rowComplete
    have hdd : dropDups [] ((dropDups [] df.rows).filter rowComplete)
        = (dropDups [] df.rows).filter rowComplete :=
      dropDups_eq_self [] _ hnd fun a _ => List.not_mem_nil a
    have hff : ((dropDups [] df.rows).filter rowComplete).filter rowComplete
        = (dropDups [] df.rows).filter rowComplete :=
      List.filter_eq_self.2 fun a ha => List.of_mem_filter ha
    exact ⟨by rw [hF, hF2, hdd, hff], by rw [hF, hdup, hdd, Nat.sub_self],
      by rw [hF, hmh, hdd, hff, Nat.sub_self]⟩

/- ## C8: the chart decision table -/

/-- C8 (amended): `suggest_chart_type` always returns one of the four
chart kinds, and it follows the claimed decision table whenever the
y-column name, if present, is non-empty: numeric x alone → histogram,
non-numeric x alone → bar, numeric/numeric → scatter, mixed → box,
neither numeric → bar.  (A present but empty y-name is treated as absent
by the source's truthiness test when computing `y_is_numeric` but not by
its `is None` branch, breaking the table there — see the
counterexample.) -/
theorem suggest_chart_type_table (df : DataFrame) (x : String) (y : Option String) :
    suggest_chart_type x y df ∈ ["histogram", "bar", "scatter", "box"]
      ∧ (y = none →
          suggest_chart_type x y df
            = if x ∈ (analyze_column_types df).numeric then "histogram" else "bar")
      ∧ (∀ s, y = some s → s ≠ "" →
          suggest_chart_type x y df
            = if x ∈ (analyze_column_types df).numeric then
                (if s ∈ (analyze_column_types df).numeric then "scatter" else "box")
              else
                (if s ∈ (analyze_column_types df).numeric then "box" else "bar")) := by
  cases y with
  | none =>
    by_cases hx : x ∈ (analyze_column_types df).numeric
    · exact ⟨by simp [suggest_chart_type, hx], fun _ => by simp [suggest_chart_type, hx],
        fun s hs => absurd hs (by simp)⟩
    · exact ⟨by simp [suggest_chart_type, hx], fun _ => by simp [suggest_chart_type, hx],
        fun s hs => absurd hs (by simp)⟩
  | some s =>
    refine ⟨?_, fun hcon => absurd hcon (by simp), fun s2 hs2 hne => ?_⟩
    · by_cases hse : s = "" <;> by_cases hx : x ∈ (analyze_column_types df).numeric <;>
          by_cases hy : s ∈ (analyze_column_types df).numeric <;>
        simp [suggest_chart_type, hse, hx, hy]
    · obtain rfl : s = s2 := by injection hs2
      by_cases hx : x ∈ (analyze_column_types df).numeric <;>
          by_cases hy : s ∈ (analyze_column_types df).numeric <;>
        simp [suggest_chart_type, hne, hx, hy]

/-- Witness for C8: a frame with a numeric and a text column, at
`x = "n"`, `y = some "c"` (the table's mixed case, recommendation box). -/
theorem suggest_chart_type_table_witness :
    suggest_chart_type "n" (some "c") dfMix ∈ ["histogram", "bar", "scatter", "box"]
      ∧ ((some "c" : Option String) = none →
          suggest_chart_type "n" (some "c") dfMix
            = if "n" ∈ (analyze_column_types dfMix).numeric then "histogram" else "bar")
      ∧ (∀ s, (some "c" : Option String) = some s → s ≠ "" →
          suggest_chart_type "n" (some "c") dfMix
            = if "n" ∈ (analyze_column_types dfMix).numeric then
                (if s ∈ (analyze_column_types dfMix).numeric then "scatter" else "box")
              else
                (if s ∈ (analyze_column_types dfMix).numeric then "box" else "bar")) :=
  suggest_chart_type_table dfMix "n" (some "c")

/- ## C6 / C10: the IQR outlier algorithm -/

/-- The lower IQR fence `Q1 - 1.5 * IQR` of a numeric column. -/
def iqrLower (df : DataFrame) (j : Nat) : ℚ :=
  quantileD (presentRats (colCells df j)) (1 / 4)
    - 3 / 2 * (quantileD (presentRats (colCells df j)) (3 / 4)
      - quantileD (presentRats (colCells df j)) (1 / 4))

/-- The upper IQR fence `Q3 + 1.5 * IQR` of a numeric column. -/
def iqrUpper (df : DataFrame) (j : Nat) : ℚ :=
  quantileD (presentRats (colCells df j)) (3 / 4)
    + 3 / 2 * (quantileD (presentRats (colCells df j)) (3 / 4)
      - quantileD (presentRats (colCells df j)) (1 / 4))

/-- The rows `df[(df[column] < lower) | (df[column] > upper)]` selects. -/
def outlierRows (df : DataFrame) (j : Nat) : List (List Value) :=
  df.rows.filter (fun r => vltQ (r.getD j Value.missing) (iqrLower df j)
    || vgtQ (r.getD j Value.missing) (iqrUpper df j))

/-- The outlier rows with their `outlier_reason` column appended. -/
def outlierAnnotated (df : DataFrame) (j : Nat) : List (List Value × String) :=
  (outlierRows df j).map (fun r =>
    (r, if vltQ (r.getD j Value.missing) (iqrLower df j) then "Below " ++ fmt2 (iqrLower df j)
      else "Above " ++ fmt2 (iqrUpper df j)))

/-- The statistics dictionary of a successful `detect_outliers` run. -/
def outlierStatsOf (df : DataFrame) (j : Nat) : OutlierStats :=
  ⟨(presentRats (colCells df j)).length, (outlierAnnotated df j).length,
    ((outlierAnnotated df j).length : ℚ) / ((presentRats (colCells df j)).length : ℚ) * 100,
    iqrLower df j, iqrUpper df j,
    quantileD (presentRats (colCells df j)) (1 / 4),
    quantileD (presentRats (colCells df j)) (3 / 4),
    quantileD (presentRats (colCells df j)) (3 / 4)
      - quantileD (presentRats (colCells df j)) (1 / 4)⟩

theorem detect_outliers_ok_inv (df : DataFrame) (c : String)
    (out : List (List Value × String)) (st : OutlierStats)
    (h : detect_outliers df c = .ok (some (out, st))) :
    ∃ j, getColIdx df c = some j
      ∧ (colDtype df j = some DType.int64 ∨ colDtype df j = some DType.float64)
      ∧ (presentRats (colCells df j)).length ≠ 0
      ∧ out = outlierAnnotated df j
      ∧ st = outlierStatsOf df j := by
  unfold detect_outliers at h
  cases hIdx : getColIdx df c with
  | none => rw [hIdx] at h; cases h
  | some j =>
    rw [hIdx] at h
    dsimp only at h
    by_cases hdt : ((colDtype df j == some DType.int64)
        || (colDtype df j == some DType.float64)) = true
    · rw [if_pos hdt] at h
      by_cases hz : (presentRats (colCells df j)).length = 0
      · rw [if_pos hz] at h; cases h
      · rw [if_neg hz] at h
        refine ⟨j, rfl, by simpa [Bool.or_eq_true, beq_iff_eq] using hdt, hz, ?_⟩
        have h2 := Except.ok.inj h
        have h3 := Option.some.inj h2
        have h4 : outlierAnnotated df j = out := congrArg Prod.fst h3
        have h5 : outlierStatsOf df j = st := congrArg Prod.snd h3
        exact ⟨h4.symm, h5.symm⟩
    · rw [if_neg hdt] at h; cases h

/-- C6 (amended): every successful outlier run computes Q1 and Q3 as the
25th/75th percentiles (linear interpolation) of the column's non-missing
values, fences at Q1 − 1.5·IQR and Q3 + 1.5·IQR, flags exactly the rows
strictly outside the fences, annotates each flagged row with the bound to
two decimals in the source's actual format "Below X.XX" / "Above X.XX"
(not the claimed "below lower bound X.XX" wording — see the
counterexample), and reports percentage = count / non-missing total ×
100.  On [1,2,3,4,5,100] this gives Q1 = 2.25, Q3 = 4.75, fences
[-1.5, 8.5], one flagged row and percentage 50/3 (see the witness). -/
theorem detect_outliers_iqr_spec (df : DataFrame) (c : String)
    (out : List (List Value × String)) (st : OutlierStats)
    (h : detect_outliers df c = .ok (some (out, st))) :
    ∃ j, getColIdx df c = some j
      ∧ st.Q1 = quantileD (presentRats (colCells df j)) (1 / 4)
      ∧ st.Q3 = quantileD (presentRats (colCells df j)) (3 / 4)
      ∧ st.IQR = st.Q3 - st.Q1
      ∧ st.lower_bound = st.Q1 - 3 / 2 * st.IQR
      ∧ st.upper_bound = st.Q3 + 3 / 2 * st.IQR
      ∧ st.total_values = (presentRats (colCells df j)).length
      ∧ 0 < st.total_values
      ∧ out.map Prod.fst = df.rows.filter (fun r =>
          vltQ (r.getD j Value.missing) st.lower_bound
            || vgtQ (r.getD j Value.missing) st.upper_bound)
      ∧ (∀ p ∈ out, p.2 = if vltQ (p.1.getD j Value.missing) st.lower_bound
          then "Below " ++ fmt2 st.lower_bound else "Above " ++ fmt2 st.upper_bound)
      ∧ st.outliers_count = out.length
      ∧ st.outliers_percentage = (st.outliers_count : ℚ) / (st.total_values : ℚ) * 100 := by
  obtain ⟨j, hIdx, _, hz, rfl, rfl⟩ := detect_outliers_ok_inv df c out st h
  refine ⟨j, hIdx, rfl, rfl, rfl, rfl, rfl, rfl, Nat.pos_of_ne_zero hz, ?_, ?_, rfl, rfl⟩
  · show (outlierAnnotated df j).map Prod.fst = _
    unfold outlierAnnotated
    rw [List.map_map]
    exact List.map_id _
  · intro p hp
    obtain ⟨r, _, rfl⟩ := List.mem_map.1 hp
    rfl

/-- Witness for C6: the spec's vector [1,2,3,4,5,100] — Q1 = 2.25,
Q3 = 4.75, IQR = 2.5, fences [-1.5, 8.5], exactly the value 100 flagged
with reason "Above 8.50", count 1 of 6 present values,
percentage 50/3 ≈ 16.67. -/
theorem detect_outliers_iqr_spec_witness :
    (∃ j, getColIdx df6 "v" = some j
      ∧ st6.Q1 = quantileD (presentRats (colCells df6 j)) (1 / 4)
      ∧ st6.Q3 = quantileD (presentRats (colCells df6 j)) (3 / 4)
      ∧ st6.IQR = st6.Q3 - st6.Q1
      ∧ st6.lower_bound = st6.Q1 - 3 / 2 * st6.IQR
      ∧ st6.upper_bound = st6.Q3 + 3 / 2 * st6.IQR
      ∧ st6.total_values = (presentRats (colCells df6 j)).length
      ∧ 0 < st6.total_values
      ∧ out6.map Prod.fst = df6.rows.filter (fun r =>
          vltQ (r.getD j Value.missing) st6.lower_bound
            || vgtQ (r.getD j Value.missing) st6.upper_bound)
      ∧ (∀ p ∈ out6, p.2 = if vltQ (p.1.getD j Value.missing) st6.lower_bound
          then "Below " ++ fmt2 st6.lower_bound else "Above " ++ fmt2 st6.upper_bound)
      ∧ st6.outliers_count = out6.length
      ∧ st6.outliers_percentage = (st6.outliers_count : ℚ) / (st6.total_values : ℚ) * 100)
      ∧ st6.Q1 = 9 / 4 ∧ st6.Q3 = 19 / 4 ∧ st6.IQR = 5 / 2
      ∧ st6.lower_bound = -3 / 2 ∧ st6.upper_bound = 17 / 2
      ∧ st6.outliers_count = 1 ∧ st6.total_values = 6
      ∧ st6.outliers_percentage = 50 / 3
      ∧ out6 = [([Value.num 100], "Above " ++ fmt2 (17 / 2))] :=
  ⟨detect_outliers_iqr_spec df6 "v" out6 st6 (by decide), by decide, by decide, by decide,
    by decide, by decide, by decide, by decide, by decide, by decide⟩

/-- C10: in a successful outlier run the fences come from the present
(non-missing) values only — Q1 and Q3 are quantiles of `dropna()` — and
every returned outlier row has a present value in the inspected column:
the pandas comparisons `df[column] < lower` / `> upper` are false on
NaN, so missing rows never enter the mask. -/
theorem detect_outliers_ignores_missing_rows (df : DataFrame) (c : String)
    (out : List (List Value × String)) (st : OutlierStats)
    (h : detect_outliers df c = .ok (some (out, st))) :
    ∃ j, getColIdx df c = some j
      ∧ (∀ p ∈ out, p.1.getD j Value.missing ≠ Value.missing)
      ∧ st.Q1 = quantileD (presentRats (colCells df j)) (1 / 4)
      ∧ st.Q3 = quantileD (presentRats (colCells df j)) (3 / 4) := by
  obtain ⟨j, hIdx, _, _, rfl, rfl⟩ := detect_outliers_ok_inv df c out st h
  refine ⟨j, hIdx, ?_, rfl, rfl⟩
  intro p hp hmiss
  obtain ⟨r, hr, rfl⟩ := List.mem_map.1 hp
  have hpred := List.of_mem_filter hr
  rw [show (r, if vltQ (r.getD j Value.missing) (iqrLower df j) then
      "Below " ++ fmt2 (iqrLower df j) else "Above " ++ fmt2 (iqrUpper df j)).1
    = r from rfl] at hmiss
  rw [hmiss] at hpred
  cases hpred

/-- Witness for C10: the [1,2,3,4,5,100] column extended with a missing
row; the run succeeds, flags only the row [100], and that row's value is
present. -/
theorem detect_outliers_ignores_missing_rows_witness :
    ∃ j, getColIdx df10 "v" = some j
      ∧ (∀ p ∈ out10, p.1.getD j Value.missing ≠ Value.missing)
      ∧ st6.Q1 = quantileD (presentRats (colCells df10 j)) (1 / 4)
      ∧ st6.Q3 = quantileD (presentRats (colCells df10 j)) (3 / 4) :=
  detect_outliers_ignores_missing_rows df10 "v" out10 st6 (by decide)

/- ## C9: cleaning never mutates the input frame -/

theorem getD_concat_self {α : Type} (d : α) :
    ∀ (l : List α) (x : α), (l ++ [x]).getD l.length d = x
  | [], _ => rfl
  | _ :: ys, x => getD_concat_self d ys x

theorem getD_append_lt {α : Type} (d : α) :
    ∀ (l l2 : List α) (n : Nat), n < l.length → (l ++ l2).getD n d = l.getD n d
  | [], _, n, h => absurd h (Nat.not_lt_zero n)
  | _ :: _, _, 0, _ => rfl
  | _ :: ys, l2, n + 1, h => getD_append_lt d ys l2 n (Nat.lt_of_succ_lt_succ h)

theorem getD_set_self {α : Type} (d : α) :
    ∀ (l : List α) (b : Nat) (x : α), b < l.length → (l.set b x).getD b d = x
  | [], b, _, h => absurd h (Nat.not_lt_zero b)
  | _ :: _, 0, _, _ => rfl
  | _ :: ys, b + 1, x, h => getD_set_self d ys b x (Nat.lt_of_succ_lt_succ h)

theorem getD_set_ne {α : Type} (d : α) :
    ∀ (l : List α) (b a : Nat) (x : α), a ≠ b → (l.set b x).getD a d = l.getD a d
  | [], _, _, _, _ => rfl
  | _ :: _, 0, 0, _, hne => absurd rfl hne
  | _ :: _, 0, _ + 1, _, _ => rfl
  | _ :: _, _ + 1, 0, _, _ => rfl
  | _ :: ys, b + 1, a + 1, x, hne =>
    getD_set_ne d ys b a x fun he => hne (congrArg Nat.succ he)

/-- C9: executing `clean_data` over an explicit frame store.  `df.copy()`
allocates a fresh slot (so the returned address differs from the input's),
every mutating statement writes through that fresh address, the input
slot holds the same frame after the call as before, and the frame at the
returned address together with the returned statistics equal the pure
`clean_data` of the input frame — so before/after comparison against the
original stays valid. -/
theorem clean_data_heap_preserves_input (heap : List DataFrame) (a : Nat) (rd : Bool)
    (hm : String) (ct : Bool) (ha : a < heap.length) :
    (clean_data_heap heap a rd hm ct).1.getD a default = heap.getD a default
      ∧ (clean_data_heap heap a rd hm ct).2.1 ≠ a
      ∧ (clean_data_heap heap a rd hm ct).1.getD
            (clean_data_heap heap a rd hm ct).2.1 default
          = (clean_data (heap.getD a default) rd hm ct).1
      ∧ (clean_data_heap heap a rd hm ct).2.2
          = (clean_data (heap.getD a default) rd hm ct).2 := by
  have hb : a ≠ heap.length := Nat.ne_of_lt ha
  have hlen1 : heap.length < (heap ++ [heap.getD a default]).length := by
    simp
  have e1 : (heap ++ [heap.getD a default]).getD heap.length default = heap.getD a default :=
    getD_concat_self default heap _
  have ea1 : (heap ++ [heap.getD a default]).getD a default = heap.getD a default :=
    getD_append_lt default heap _ a ha
  refine ⟨?_, ?_, ?_, ?_⟩ <;>
    cases rd <;> cases ct <;>
      simp [clean_data_heap, clean_data, hb, Ne.symm hb, e1, ea1, hlen1, ha,
        getD_set_self, getD_set_ne, List.getElem?_append_left]

/-- Witness for C9: a one-frame store cleaned with fill_mean, duplicates
and coercion enabled. -/
theorem clean_data_heap_preserves_input_witness :
    (clean_data_heap [dfMix] 0 true "fill_mean" true).1.getD 0 default
        = [dfMix].getD 0 default
      ∧ (clean_data_heap [dfMix] 0 true "fill_mean" true).2.1 ≠ 0
      ∧ (clean_data_heap [dfMix] 0 true "fill_mean" true).1.getD
            (clean_data_heap [dfMix] 0 true "fill_mean" true).2.1 default
          = (clean_data ([dfMix].getD 0 default) true "fill_mean" true).1
      ∧ (clean_data_heap [dfMix] 0 true "fill_mean" true).2.2
          = (clean_data ([dfMix].getD 0 default) true "fill_mean" true).2 :=
  clean_data_heap_preserves_input [dfMix] 0 true "fill_mean" true (by decide)
